import Mathlib

/-!
Verification of the PTY session manager in src/src-tauri/src/lib.rs.

The Rust code is embedded shallowly:
- the registry (a HashMap String PtySession behind a Mutex) becomes an
  association list with unique keys maintained by insert and removeKey;
- each Tauri command becomes a pure function from the registry and an
  oracle (the outcomes of the fallible OS calls: mutex lock, openpty,
  spawn_command, try_clone_reader, take_writer, kill, write_all, flush,
  resize) to a result, the new registry, and a trace of actions;
- the trace records lock acquisition and release and every externally
  visible step (removals, kills, event emissions, PTY allocation, shell
  spawn, byte writes, flushes, resizes), in program order;
- the per-session reader thread (the Output Pump) becomes a function from
  the finite list of read results it observes to the list of events it
  emits.
-/

namespace Inquira

/-- One live PTY session as stored in the registry. The exclusively owned
writer, child and master handles are modelled by numeric identifiers. -/
structure PtySession where
  writerId : Nat
  childId : Nat
  masterId : Nat
deriving DecidableEq

/-- Events pushed to the UI layer: terminal pty-data and terminal pty-exit. -/
inductive Event where
  | ptyData (sid : String) (data : String)
  | ptyExit (sid : String)
deriving DecidableEq

/-- Externally visible steps taken by the commands, in program order.
lockAcquire and lockRelease mark the scope of the registry mutex guard. -/
inductive Action where
  | lockAcquire
  | lockRelease
  | removeSession (sid : String)
  | killChild (childId : Nat)
  | emit (e : Event)
  | openPty (rows cols : Nat)
  | spawnShell (shell : String) (cwd : String)
  | cloneReader
  | takeWriter
  | spawnPump (sid : String)
  | insertSession (sid : String)
  | ioWrite (writerId : Nat) (data : String)
  | ioFlush (writerId : Nat)
  | resizePty (masterId : Nat) (rows cols : Nat)
deriving DecidableEq

/-- The session registry: HashMap String PtySession as an association list. -/
abbrev Registry := List (String × PtySession)

/-- HashMap lookup. -/
def Registry.lookup : Registry → String → Option PtySession
  | [], _ => none
  | (k, v) :: rest, sid => if k = sid then some v else Registry.lookup rest sid

/-- HashMap remove: drops every binding of the key (with unique keys this
is the single binding, matching HashMap remove). -/
def Registry.removeKey : Registry → String → Registry
  | [], _ => []
  | (k, v) :: rest, sid =>
      if k = sid then Registry.removeKey rest sid
      else (k, v) :: Registry.removeKey rest sid

/-- HashMap insert: replaces any existing binding of the key. -/
def Registry.insert (r : Registry) (sid : String) (s : PtySession) : Registry :=
  (sid, s) :: r.removeKey sid

/-- The events carried by a trace, in order. -/
def eventsOf : List Action → List Event
  | [] => []
  | Action.emit e :: rest => e :: eventsOf rest
  | _ :: rest => eventsOf rest

/-- Number of pty-exit events for a given session id in a list of events. -/
def exitCount (sid : String) : List Event → Nat
  | [] => 0
  | e :: rest => (if e = Event.ptyExit sid then 1 else 0) + exitCount sid rest

/-- The actions of a trace performed while the registry lock is held. -/
def lockedActionsAux : Bool → List Action → List Action
  | _, [] => []
  | held, a :: rest =>
      match a with
      | Action.lockAcquire => lockedActionsAux true rest
      | Action.lockRelease => lockedActionsAux false rest
      | a => if held then a :: lockedActionsAux held rest else lockedActionsAux held rest

/-- Actions performed between a lockAcquire and the matching lockRelease. -/
def lockedActions (as : List Action) : List Action :=
  lockedActionsAux false as

/-- The process environment and filesystem visible to the manager. -/
structure Env where
  isWindows : Bool
  comspec : Option String
  shellVar : Option String
  currentDir : Option String
  pathExists : String → Bool
  isDir : String → Bool

/-- PathBuf from the relative dot path, the fallback of current_dir. -/
def defaultDir : String := "."

/-- Embeds str trim of Rust: strip leading and trailing whitespace. It is
written over the character list so it evaluates by kernel reduction. -/
def rustTrim (s : String) : String :=
  String.mk (((s.data.dropWhile Char.isWhitespace).reverse.dropWhile
    Char.isWhitespace).reverse)

/-- Embeds detect_default_shell: COMSPEC or powershell.exe on Windows,
SHELL or /bin/bash elsewhere; blank values are treated as unset. -/
def detect_default_shell (env : Env) : String × List String :=
  if env.isWindows then
    let shell :=
      match env.comspec with
      | some v => if rustTrim v = "" then ("powershell.exe") else v
      | none => ("powershell.exe")
    (shell, [])
  else
    let shell :=
      match env.shellVar with
      | some v => if rustTrim v = "" then ("/bin/bash") else v
      | none => ("/bin/bash")
    (shell, [])

/-- Embeds resolve_pty_cwd: the fallback is the current directory of the
process (or the dot path when unavailable); a supplied value is trimmed,
and used only when nonblank and an existing directory. -/
def resolve_pty_cwd (env : Env) (requested_cwd : Option String) : String :=
  let fallback := env.currentDir.getD defaultDir
  match requested_cwd with
  | none => fallback
  | some raw =>
      let trimmed := rustTrim raw
      if trimmed = "" then fallback
      else if env.pathExists trimmed && env.isDir trimmed then trimmed
      else fallback

def msgSessionRequired : String := "session_id is required"
def msgLockFailed : String := "Failed to lock PTY session store."
def msgNotFound : String := "PTY session not found."
def msgAllocPty : String := "Unable to allocate PTY: "
def msgStartShell : String := "Unable to start shell: "
def msgCloneReader : String := "Unable to clone PTY reader: "
def msgOpenWriter : String := "Unable to open PTY writer: "
def msgWriteFailed : String := "Failed to write PTY input: "
def msgFlushFailed : String := "Failed to flush PTY input: "
def msgResizeFailed : String := "Failed to resize PTY: "

/-- Outcomes of the fallible calls made by tauri_terminal_start. killOk is
the outcome of the kill of an evicted child; the code discards it. -/
structure StartOracle where
  lockOk : Bool
  killOk : Bool
  openPtyOk : Bool
  openPtyErr : String
  spawnOk : Bool
  spawnErr : String
  cloneReaderOk : Bool
  cloneReaderErr : String
  takeWriterOk : Bool
  takeWriterErr : String
  lockOk2 : Bool
  newWriterId : Nat
  newChildId : Nat
  newMasterId : Nat

/-- Outcomes of the fallible calls made by write, resize and stop. killOk
is the outcome of the kill performed by stop; the code discards it. -/
structure OpOracle where
  lockOk : Bool
  killOk : Bool
  writeOk : Bool
  writeErr : String
  flushOk : Bool
  flushErr : String
  resizeOk : Bool
  resizeErr : String

/-- Result of one command: its return value, the registry afterwards, and
the trace of actions it performed. -/
structure StepOut (α : Type) where
  result : Except String α
  registry : Registry
  actions : List Action

structure PtyStartResponse where
  session_id : String
  cwd : String
  shell : String
deriving DecidableEq

structure PtyStopResponse where
  stopped : Bool
deriving DecidableEq

/-- Embeds tauri_terminal_start: trim and validate the id; under the lock,
evict any colliding session (remove, kill with the error discarded, emit
pty-exit for the old id); resolve cwd and shell; open a PTY clamped to at
least one row and column; spawn the shell; clone a reader and take the
writer; spawn the pump thread; insert the new session under the lock. -/
def tauri_terminal_start (env : Env) (o : StartOracle) (reg : Registry)
    (session_id : String) (cwd : Option String) (cols rows : Nat) :
    StepOut PtyStartResponse :=
  let normalized := rustTrim session_id
  if normalized = "" then
    ⟨Except.error msgSessionRequired, reg, []⟩
  else if o.lockOk = false then
    ⟨Except.error msgLockFailed, reg, []⟩
  else
    let evict : Registry × List Action :=
      match reg.lookup normalized with
      | some existing =>
          (reg.removeKey normalized,
            [Action.lockAcquire, Action.removeSession normalized,
             Action.killChild existing.childId,
             Action.emit (Event.ptyExit normalized), Action.lockRelease])
      | none => (reg, [Action.lockAcquire, Action.lockRelease])
    let reg1 := evict.1
    let a0 := evict.2
    let shell_cwd := resolve_pty_cwd env cwd
    let pty_rows := max rows 1
    let pty_cols := max cols 1
    if o.openPtyOk = false then
      ⟨Except.error (msgAllocPty ++ o.openPtyErr), reg1,
        a0 ++ [Action.openPty pty_rows pty_cols]⟩
    else
      let shell := (detect_default_shell env).1
      if o.spawnOk = false then
        ⟨Except.error (msgStartShell ++ o.spawnErr), reg1,
          a0 ++ [Action.openPty pty_rows pty_cols, Action.spawnShell shell shell_cwd]⟩
      else if o.cloneReaderOk = false then
        ⟨Except.error (msgCloneReader ++ o.cloneReaderErr), reg1,
          a0 ++ [Action.openPty pty_rows pty_cols, Action.spawnShell shell shell_cwd]⟩
      else if o.takeWriterOk = false then
        ⟨Except.error (msgOpenWriter ++ o.takeWriterErr), reg1,
          a0 ++ [Action.openPty pty_rows pty_cols, Action.spawnShell shell shell_cwd,
                 Action.cloneReader]⟩
      else if o.lockOk2 = false then
        ⟨Except.error msgLockFailed, reg1,
          a0 ++ [Action.openPty pty_rows pty_cols, Action.spawnShell shell shell_cwd,
                 Action.cloneReader, Action.takeWriter, Action.spawnPump normalized]⟩
      else
        ⟨Except.ok ⟨normalized, shell_cwd, shell⟩,
          reg1.insert normalized ⟨o.newWriterId, o.newChildId, o.newMasterId⟩,
          a0 ++ [Action.openPty pty_rows pty_cols, Action.spawnShell shell shell_cwd,
                 Action.cloneReader, Action.takeWriter, Action.spawnPump normalized,
                 Action.lockAcquire, Action.insertSession normalized, Action.lockRelease]⟩

/-- Embeds tauri_terminal_write: under the lock, look the id up verbatim,
then write the bytes and flush on the stored writer; the guard is dropped
only when the function returns. -/
def tauri_terminal_write (o : OpOracle) (reg : Registry)
    (session_id : String) (data : String) : StepOut Unit :=
  if o.lockOk = false then
    ⟨Except.error msgLockFailed, reg, []⟩
  else
    match reg.lookup session_id with
    | none => ⟨Except.error msgNotFound, reg, [Action.lockAcquire, Action.lockRelease]⟩
    | some s =>
        if o.writeOk = false then
          ⟨Except.error (msgWriteFailed ++ o.writeErr), reg,
            [Action.lockAcquire, Action.ioWrite s.writerId data, Action.lockRelease]⟩
        else if o.flushOk = false then
          ⟨Except.error (msgFlushFailed ++ o.flushErr), reg,
            [Action.lockAcquire, Action.ioWrite s.writerId data,
             Action.ioFlush s.writerId, Action.lockRelease]⟩
        else
          ⟨Except.ok (), reg,
            [Action.lockAcquire, Action.ioWrite s.writerId data,
             Action.ioFlush s.writerId, Action.lockRelease]⟩

/-- Embeds tauri_terminal_resize: under the lock, look the id up verbatim,
clamp rows and cols to at least one, and resize the master PTY. -/
def tauri_terminal_resize (o : OpOracle) (reg : Registry)
    (session_id : String) (cols rows : Nat) : StepOut Unit :=
  if o.lockOk = false then
    ⟨Except.error msgLockFailed, reg, []⟩
  else
    match reg.lookup session_id with
    | none => ⟨Except.error msgNotFound, reg, [Action.lockAcquire, Action.lockRelease]⟩
    | some s =>
        let pty_rows := max rows 1
        let pty_cols := max cols 1
        if o.resizeOk = false then
          ⟨Except.error (msgResizeFailed ++ o.resizeErr), reg,
            [Action.lockAcquire, Action.resizePty s.masterId pty_rows pty_cols,
             Action.lockRelease]⟩
        else
          ⟨Except.ok (), reg,
            [Action.lockAcquire, Action.resizePty s.masterId pty_rows pty_cols,
             Action.lockRelease]⟩

/-- Embeds tauri_terminal_stop: under the lock, remove the id (verbatim)
if present, kill the child (the error is discarded), emit pty-exit and
report stopped true; otherwise report stopped false. -/
def tauri_terminal_stop (o : OpOracle) (reg : Registry)
    (session_id : String) : StepOut PtyStopResponse :=
  if o.lockOk = false then
    ⟨Except.error msgLockFailed, reg, []⟩
  else
    match reg.lookup session_id with
    | some s =>
        ⟨Except.ok ⟨true⟩, reg.removeKey session_id,
          [Action.lockAcquire, Action.removeSession session_id,
           Action.killChild s.childId, Action.emit (Event.ptyExit session_id),
           Action.lockRelease]⟩
    | none => ⟨Except.ok ⟨false⟩, reg, [Action.lockAcquire, Action.lockRelease]⟩

/-- One read observed by the Output Pump thread: a nonempty chunk already
decoded permissively, end of file (a zero length read), or a read error. -/
inductive ReadResult where
  | chunk (data : String)
  | eof
  | err
deriving DecidableEq

/-- Embeds the reader loop spawned by tauri_terminal_start: forward every
chunk as a pty-data event; stop at end of file or on an error and then
emit exactly one pty-exit event; an unterminated history emits no exit. -/
def pumpEvents (sid : String) : List ReadResult → List Event
  | [] => []
  | ReadResult.chunk d :: rest => Event.ptyData sid d :: pumpEvents sid rest
  | ReadResult.eof :: _ => [Event.ptyExit sid]
  | ReadResult.err :: _ => [Event.ptyExit sid]

/-- Whether the read history ends the pump loop (contains eof or err). -/
def readsTerminate : List ReadResult → Bool
  | [] => false
  | ReadResult.chunk _ :: rest => readsTerminate rest
  | ReadResult.eof :: _ => true
  | ReadResult.err :: _ => true

/-- All events observed over one session lifetime under the schedule:
start on an empty registry, then (optionally) an explicit stop with the
id that start returned, then the pump observes the rest of its reads and
finishes. Only the event multiset is schedule dependent here, not the
per-source counts, so this fixed schedule is enough for counting. -/
def oneSessionRun (env : Env) (o : StartOracle) (so : OpOracle)
    (sid : String) (cwd : Option String) (cols rows : Nat)
    (stopCalled : Bool) (reads : List ReadResult) : List Event :=
  let s := tauri_terminal_start env o [] sid cwd cols rows
  let stopEvents :=
    if stopCalled then eventsOf (tauri_terminal_stop so s.registry (rustTrim sid)).actions
    else []
  eventsOf s.actions ++ stopEvents ++ pumpEvents (rustTrim sid) reads

/-! Concrete instances used by the witnesses below. -/

def envD : Env := ⟨false, none, none, none, fun _ => false, fun _ => false⟩

def oAllOk : StartOracle := ⟨true, true, true, "", true, "", true, "", true, "", true, 10, 11, 12⟩

def opAllOk : OpOracle := ⟨true, true, true, "", true, "", true, ""⟩

def sidS : String := "s"

def sidPad : String := " s "

def sidBlank : String := "   "

def dataX : String := "x"

def regOne : Registry := [(sidS, ⟨1, 2, 3⟩)]

/-! Registry lemmas. -/

theorem Registry.lookup_removeKey_self (r : Registry) (k : String) :
    (r.removeKey k).lookup k = none := by
  induction r with
  | nil => rfl
  | cons p rest ih =>
      obtain ⟨k2, v⟩ := p
      by_cases h : k2 = k <;> simp [Registry.removeKey, Registry.lookup, h, ih]

theorem Registry.lookup_removeKey_ne (r : Registry) (k k2 : String)
    (h : k2 ≠ k) : (r.removeKey k).lookup k2 = r.lookup k2 := by
  induction r with
  | nil => rfl
  | cons p rest ih =>
      obtain ⟨k3, v⟩ := p
      have hk : ¬(k = k2) := fun hx => h hx.symm
      by_cases h3 : k3 = k
      · simp [Registry.removeKey, Registry.lookup, h3, hk, ih]
      · by_cases h4 : k3 = k2 <;>
          simp [Registry.removeKey, Registry.lookup, h3, h4, h, ih]

theorem Registry.lookup_insert_self (r : Registry) (k : String)
    (s : PtySession) : (r.insert k s).lookup k = some s := by
  simp [Registry.insert, Registry.lookup]

theorem Registry.lookup_insert_ne (r : Registry) (k k2 : String)
    (s : PtySession) (h : k2 ≠ k) :
    (r.insert k s).lookup k2 = r.lookup k2 := by
  have hne : ¬(k = k2) := fun hx => h hx.symm
  simp only [Registry.insert, Registry.lookup, if_neg hne]
  exact Registry.lookup_removeKey_ne r k k2 h

/-! Output Pump lemmas. -/

theorem exitCount_pumpEvents (sid : String) (reads : List ReadResult)
    (h : readsTerminate reads = true) :
    exitCount sid (pumpEvents sid reads) = 1 := by
  induction reads with
  | nil => simp [readsTerminate] at h
  | cons r rest ih =>
      cases r with
      | chunk d =>
          have h2 : readsTerminate rest = true := by
            simpa [readsTerminate] using h
          simp [pumpEvents, exitCount, ih h2]
      | eof => simp [pumpEvents, exitCount]
      | err => simp [pumpEvents, exitCount]

theorem exitCount_append (sid : String) (l1 l2 : List Event) :
    exitCount sid (l1 ++ l2) = exitCount sid l1 + exitCount sid l2 := by
  induction l1 with
  | nil => simp [exitCount]
  | cons e rest ih => simp [exitCount, ih, Nat.add_assoc]

/-- C5: a session id that is empty or whitespace only is rejected with the
validation error before any resource is touched: the command returns the
validation message, leaves the registry unchanged and performs no action
at all (no lock, no PTY allocation, no spawn, no event). -/
theorem start_blank_id_rejected (env : Env) (o : StartOracle)
    (reg : Registry) (sid : String) (cwd : Option String) (cols rows : Nat)
    (h : rustTrim sid = "") :
    tauri_terminal_start env o reg sid cwd cols rows =
      ⟨Except.error msgSessionRequired, reg, []⟩ := by
  simp [tauri_terminal_start, h]

theorem start_blank_id_rejected_witness :
    rustTrim sidBlank = "" ∧
    tauri_terminal_start envD oAllOk regOne sidBlank none 80 24 =
      ⟨Except.error msgSessionRequired, regOne, []⟩ :=
  ⟨by decide, start_blank_id_rejected envD oAllOk regOne sidBlank none 80 24 (by decide)⟩

/-- C4: stop reports stopped true exactly when a session is registered
under the id at the time of the call; in that case the session is removed,
its child killed with the kill outcome discarded, and exactly one pty-exit
event emitted; on a missing id it reports stopped false, changes nothing
and emits nothing, and is not an error. -/
theorem stop_found_iff_registered (o : OpOracle) (reg : Registry)
    (sid : String) (hlock : o.lockOk = true) :
    ((tauri_terminal_stop o reg sid).result = Except.ok ⟨true⟩ ↔
      ∃ s, reg.lookup sid = some s) ∧
    (∀ s, reg.lookup sid = some s →
      (tauri_terminal_stop o reg sid).registry = reg.removeKey sid ∧
      Action.killChild s.childId ∈ (tauri_terminal_stop o reg sid).actions ∧
      eventsOf (tauri_terminal_stop o reg sid).actions = [Event.ptyExit sid]) ∧
    (reg.lookup sid = none →
      (tauri_terminal_stop o reg sid).result = Except.ok ⟨false⟩ ∧
      (tauri_terminal_stop o reg sid).registry = reg ∧
      eventsOf (tauri_terminal_stop o reg sid).actions = []) ∧
    (∀ b, tauri_terminal_stop { o with killOk := b } reg sid =
      tauri_terminal_stop o reg sid) := by
  refine ⟨?_, ?_, ?_, fun b => rfl⟩
  · cases hl : reg.lookup sid with
    | none => simp [tauri_terminal_stop, hlock, hl]
    | some s => simp [tauri_terminal_stop, hlock, hl]
  · intro s hl
    simp [tauri_terminal_stop, hlock, hl, eventsOf]
  · intro hl
    simp [tauri_terminal_stop, hlock, hl, eventsOf]

theorem stop_found_iff_registered_witness :
    opAllOk.lockOk = true ∧
    ((tauri_terminal_stop opAllOk regOne sidS).result = Except.ok ⟨true⟩ ↔
      ∃ s, Registry.lookup regOne sidS = some s) :=
  ⟨by decide, (stop_found_iff_registered opAllOk regOne sidS (by decide)).1⟩

/-- C7: after stop has reported stopped true for an id, a write to that
same id with no start in between fails with the not-found message, not a
write error and not success. -/
theorem write_after_stop_not_found (so wo : OpOracle) (reg : Registry)
    (sid data : String) (hso : so.lockOk = true) (hwo : wo.lockOk = true)
    (h : (tauri_terminal_stop so reg sid).result = Except.ok ⟨true⟩) :
    (tauri_terminal_write wo (tauri_terminal_stop so reg sid).registry
        sid data).result = Except.error msgNotFound := by
  cases hl : reg.lookup sid with
  | none => simp [tauri_terminal_stop, hso, hl] at h
  | some s =>
      have hreg : (tauri_terminal_stop so reg sid).registry =
          reg.removeKey sid := by
        simp [tauri_terminal_stop, hso, hl]
      rw [hreg]
      simp [tauri_terminal_write, hwo, Registry.lookup_removeKey_self]

theorem write_after_stop_not_found_witness :
    opAllOk.lockOk = true ∧
    (tauri_terminal_stop opAllOk regOne sidS).result = Except.ok ⟨true⟩ ∧
    (tauri_terminal_write opAllOk
        (tauri_terminal_stop opAllOk regOne sidS).registry sidS dataX).result =
      Except.error msgNotFound :=
  ⟨by decide, by rfl,
    write_after_stop_not_found opAllOk opAllOk regOne sidS dataX
      (by decide) (by decide) (by rfl)⟩

/-- Shape of a fully successful start: it returns the trimmed id, the
resolved cwd and shell, and installs the new session under the trimmed id
on top of the registry with any colliding binding removed. -/
theorem start_success_shape (env : Env) (o : StartOracle) (reg : Registry)
    (sid : String) (cwd : Option String) (cols rows : Nat)
    (hsid : rustTrim sid ≠ "") (hlock : o.lockOk = true)
    (hopen : o.openPtyOk = true) (hspawn : o.spawnOk = true)
    (hreader : o.cloneReaderOk = true) (hwriter : o.takeWriterOk = true)
    (hlock2 : o.lockOk2 = true) :
    (tauri_terminal_start env o reg sid cwd cols rows).result =
      Except.ok ⟨rustTrim sid, resolve_pty_cwd env cwd,
        (detect_default_shell env).1⟩ ∧
    ∃ reg1, (reg1 = reg ∨ reg1 = reg.removeKey (rustTrim sid)) ∧
      (tauri_terminal_start env o reg sid cwd cols rows).registry =
        reg1.insert (rustTrim sid) ⟨o.newWriterId, o.newChildId, o.newMasterId⟩ := by
  cases hl : reg.lookup (rustTrim sid) with
  | none =>
      refine ⟨?_, ⟨reg, Or.inl rfl, ?_⟩⟩ <;>
        simp [tauri_terminal_start, hsid, hlock, hopen, hspawn, hreader,
          hwriter, hlock2, hl]
  | some s =>
      refine ⟨?_, ⟨reg.removeKey (rustTrim sid), Or.inr rfl, ?_⟩⟩ <;>
        simp [tauri_terminal_start, hsid, hlock, hopen, hspawn, hreader,
          hwriter, hlock2, hl]

/-- C1: when start is called with an id that collides with a registered
session, the trace begins, under the lock, with the removal of the old
session, the kill of its child and the emission of pty-exit for the old
id, in that order; no insertion occurs among these eviction steps; the
final registry never retains the old session (it is the input registry
with the old binding removed, possibly with the new session installed on
top); and the whole outcome is unchanged by the result of the kill. -/
theorem start_collision_evicts_first (env : Env) (o : StartOracle)
    (reg : Registry) (sid : String) (cwd : Option String) (cols rows : Nat)
    (old : PtySession) (hsid : rustTrim sid ≠ "") (hlock : o.lockOk = true)
    (hold : reg.lookup (rustTrim sid) = some old) :
    (tauri_terminal_start env o reg sid cwd cols rows).actions.take 5 =
      [Action.lockAcquire, Action.removeSession (rustTrim sid),
       Action.killChild old.childId, Action.emit (Event.ptyExit (rustTrim sid)),
       Action.lockRelease] ∧
    (∀ sid2, Action.insertSession sid2 ∉
      (tauri_terminal_start env o reg sid cwd cols rows).actions.take 5) ∧
    ((tauri_terminal_start env o reg sid cwd cols rows).registry =
        reg.removeKey (rustTrim sid) ∨
     (tauri_terminal_start env o reg sid cwd cols rows).registry =
        (reg.removeKey (rustTrim sid)).insert (rustTrim sid)
          ⟨o.newWriterId, o.newChildId, o.newMasterId⟩) ∧
    (∀ b, tauri_terminal_start env { o with killOk := b } reg sid cwd cols rows =
      tauri_terminal_start env o reg sid cwd cols rows) := by
  refine ⟨?_, ?_, ?_, fun b => rfl⟩
  · simp only [tauri_terminal_start, hold, hlock]
    simp only [hsid, Bool.true_eq_false, ite_false]
    split_ifs <;> rfl
  · simp only [tauri_terminal_start, hold, hlock]
    simp only [hsid, Bool.true_eq_false, ite_false]
    intro sid2
    split_ifs <;> simp
  · simp only [tauri_terminal_start, hold, hlock]
    simp only [hsid, Bool.true_eq_false, ite_false]
    split_ifs <;> simp [Registry.insert]

theorem start_collision_evicts_first_witness :
    Registry.lookup regOne (rustTrim sidS) = some ⟨1, 2, 3⟩ ∧
    (tauri_terminal_start envD oAllOk regOne sidS none 80 24).actions.take 5 =
      [Action.lockAcquire, Action.removeSession (rustTrim sidS),
       Action.killChild 2, Action.emit (Event.ptyExit (rustTrim sidS)),
       Action.lockRelease] :=
  ⟨by decide, (start_collision_evicts_first envD oAllOk regOne sidS none 80 24
      ⟨1, 2, 3⟩ (by decide) (by decide) (by decide)).1⟩

/-- C9: when start with a colliding id fails after the eviction step (PTY
allocation, spawn, or reader or writer acquisition fails), it returns an
error and the registry is left with the old binding removed and nothing
registered under the id: the prior state is not restored. -/
theorem start_failure_keeps_old_evicted (env : Env) (o : StartOracle)
    (reg : Registry) (sid : String) (cwd : Option String) (cols rows : Nat)
    (old : PtySession) (hsid : rustTrim sid ≠ "") (hlock : o.lockOk = true)
    (hold : reg.lookup (rustTrim sid) = some old)
    (hfail : o.openPtyOk = false ∨ o.spawnOk = false ∨
      o.cloneReaderOk = false ∨ o.takeWriterOk = false) :
    (∃ e, (tauri_terminal_start env o reg sid cwd cols rows).result =
      Except.error e) ∧
    (tauri_terminal_start env o reg sid cwd cols rows).registry =
      reg.removeKey (rustTrim sid) ∧
    ((tauri_terminal_start env o reg sid cwd cols rows).registry).lookup
      (rustTrim sid) = none := by
  refine ⟨?_, ?_, ?_⟩ <;>
  · simp only [tauri_terminal_start, hold, hlock]
    simp only [hsid, Bool.true_eq_false, ite_false]
    split_ifs <;> simp_all [Registry.lookup_removeKey_self]

def oPtyFail : StartOracle := { oAllOk with openPtyOk := false }

theorem start_failure_keeps_old_evicted_witness :
    oPtyFail.openPtyOk = false ∧
    (tauri_terminal_start envD oPtyFail regOne sidS none 80 24).registry =
      Registry.removeKey regOne (rustTrim sidS) ∧
    Registry.lookup
      (tauri_terminal_start envD oPtyFail regOne sidS none 80 24).registry
      (rustTrim sidS) = none :=
  ⟨by decide,
    (start_failure_keeps_old_evicted envD oPtyFail regOne sidS none 80 24
      ⟨1, 2, 3⟩ (by decide) (by decide) (by decide) (Or.inl (by decide))).2.1,
    (start_failure_keeps_old_evicted envD oPtyFail regOne sidS none 80 24
      ⟨1, 2, 3⟩ (by decide) (by decide) (by decide) (Or.inl (by decide))).2.2⟩

/-- C6: the PTY size used by start and by resize is the requested size
clamped to at least one row and one column; a zero size is clamped and
never rejected, so resize with a zero size still succeeds when the PTY
resize itself succeeds. -/
theorem pty_size_clamped (env : Env) (o : StartOracle) (reg : Registry)
    (sid : String) (cwd : Option String) (cols rows : Nat)
    (ro : OpOracle) (reg2 : Registry) (sid2 : String) (cols2 rows2 : Nat)
    (s : PtySession) (hsid : rustTrim sid ≠ "") (hlock : o.lockOk = true)
    (hrlock : ro.lockOk = true) (hs : reg2.lookup sid2 = some s) :
    Action.openPty (max rows 1) (max cols 1) ∈
      (tauri_terminal_start env o reg sid cwd cols rows).actions ∧
    Action.resizePty s.masterId (max rows2 1) (max cols2 1) ∈
      (tauri_terminal_resize ro reg2 sid2 cols2 rows2).actions ∧
    (ro.resizeOk = true →
      (tauri_terminal_resize ro reg2 sid2 cols2 rows2).result =
        Except.ok ()) := by
  refine ⟨?_, ?_, ?_⟩
  · cases hl : reg.lookup (rustTrim sid) <;>
    · simp only [tauri_terminal_start, hl, hlock]
      simp only [hsid, Bool.true_eq_false, ite_false]
      split_ifs <;> simp
  · simp only [tauri_terminal_resize, hrlock, hs]
    simp only [Bool.true_eq_false, ite_false]
    split_ifs <;> simp
  · intro hr
    simp [tauri_terminal_resize, hrlock, hs, hr]

theorem pty_size_clamped_witness :
    Action.openPty (max 0 1) (max 0 1) ∈
      (tauri_terminal_start envD oAllOk [] sidS none 0 0).actions ∧
    Action.resizePty 3 (max 0 1) (max 0 1) ∈
      (tauri_terminal_resize opAllOk regOne sidS 0 0).actions ∧
    (opAllOk.resizeOk = true →
      (tauri_terminal_resize opAllOk regOne sidS 0 0).result =
        Except.ok ()) :=
  pty_size_clamped envD oAllOk [] sidS none 0 0 opAllOk regOne sidS 0 0
    ⟨1, 2, 3⟩ (by decide) (by decide) (by decide) (by decide)

/-- C10: start registers and returns the trimmed id, while write, resize
and stop look the registry up with their argument verbatim: after a
successful start of a padded id that was not itself registered, write and
resize with the padded id report not found, stop with it reports stopped
false, and write with the trimmed id reaches the session. -/
theorem untrimmed_id_not_addressable (env : Env) (o : StartOracle)
    (reg : Registry) (sid : String) (cwd : Option String) (cols rows : Nat)
    (wo ro so : OpOracle) (data : String) (cols2 rows2 : Nat)
    (hsid : rustTrim sid ≠ "") (hne : rustTrim sid ≠ sid)
    (hnone : reg.lookup sid = none) (hlock : o.lockOk = true)
    (hopen : o.openPtyOk = true) (hspawn : o.spawnOk = true)
    (hreader : o.cloneReaderOk = true) (hwriter : o.takeWriterOk = true)
    (hlock2 : o.lockOk2 = true) (hwo : wo.lockOk = true)
    (hro : ro.lockOk = true) (hso : so.lockOk = true)
    (hw : wo.writeOk = true) (hf : wo.flushOk = true) :
    (∃ resp, (tauri_terminal_start env o reg sid cwd cols rows).result =
        Except.ok resp ∧ resp.session_id = rustTrim sid) ∧
    (tauri_terminal_write wo
        (tauri_terminal_start env o reg sid cwd cols rows).registry
        sid data).result = Except.error msgNotFound ∧
    (tauri_terminal_resize ro
        (tauri_terminal_start env o reg sid cwd cols rows).registry
        sid cols2 rows2).result = Except.error msgNotFound ∧
    (tauri_terminal_stop so
        (tauri_terminal_start env o reg sid cwd cols rows).registry
        sid).result = Except.ok ⟨false⟩ ∧
    (tauri_terminal_write wo
        (tauri_terminal_start env o reg sid cwd cols rows).registry
        (rustTrim sid) data).result = Except.ok () := by
  obtain ⟨hres, reg1, hreg1, hregi⟩ :=
    start_success_shape env o reg sid cwd cols rows hsid hlock hopen hspawn
      hreader hwriter hlock2
  have hsne : sid ≠ rustTrim sid := fun hx => hne hx.symm
  have huntrimmed :
      (tauri_terminal_start env o reg sid cwd cols rows).registry.lookup sid =
        none := by
    rw [hregi, Registry.lookup_insert_ne _ _ _ _ hsne]
    rcases hreg1 with h1 | h1
    · rw [h1]; exact hnone
    · rw [h1, Registry.lookup_removeKey_ne _ _ _ hsne]; exact hnone
  have htrimmed :
      (tauri_terminal_start env o reg sid cwd cols rows).registry.lookup
        (rustTrim sid) = some ⟨o.newWriterId, o.newChildId, o.newMasterId⟩ := by
    rw [hregi]; exact Registry.lookup_insert_self _ _ _
  refine ⟨⟨_, hres, rfl⟩, ?_, ?_, ?_, ?_⟩
  · simp [tauri_terminal_write, hwo, huntrimmed]
  · simp [tauri_terminal_resize, hro, huntrimmed]
  · simp [tauri_terminal_stop, hso, huntrimmed]
  · simp [tauri_terminal_write, hwo, htrimmed, hw, hf]

theorem untrimmed_id_not_addressable_witness :
    rustTrim sidPad ≠ sidPad ∧
    (tauri_terminal_write opAllOk
      (tauri_terminal_start envD oAllOk [] sidPad none 80 24).registry
      sidPad dataX).result = Except.error msgNotFound ∧
    (tauri_terminal_stop opAllOk
      (tauri_terminal_start envD oAllOk [] sidPad none 80 24).registry
      sidPad).result = Except.ok ⟨false⟩ ∧
    (tauri_terminal_write opAllOk
      (tauri_terminal_start envD oAllOk [] sidPad none 80 24).registry
      (rustTrim sidPad) dataX).result = Except.ok () :=
  ⟨by decide,
   (untrimmed_id_not_addressable envD oAllOk [] sidPad none 80 24 opAllOk
      opAllOk opAllOk dataX 0 0 (by decide) (by decide) (by rfl) (by decide)
      (by decide) (by decide) (by decide) (by decide) (by decide) (by decide)
      (by decide) (by decide) (by decide) (by decide)).2.1,
   (untrimmed_id_not_addressable envD oAllOk [] sidPad none 80 24 opAllOk
      opAllOk opAllOk dataX 0 0 (by decide) (by decide) (by rfl) (by decide)
      (by decide) (by decide) (by decide) (by decide) (by decide) (by decide)
      (by decide) (by decide) (by decide) (by decide)).2.2.2.1,
   (untrimmed_id_not_addressable envD oAllOk [] sidPad none 80 24 opAllOk
      opAllOk opAllOk dataX 0 0 (by decide) (by decide) (by rfl) (by decide)
      (by decide) (by decide) (by decide) (by decide) (by decide) (by decide)
      (by decide) (by decide) (by decide) (by decide)).2.2.2.2⟩

/-- C2 counterexample: a session that is started, explicitly stopped and
whose pump then observes end of file receives two pty-exit events over
its lifetime, not one: stop emits one, and the pump unconditionally emits
another when its read loop ends. -/
theorem pty_exit_twice_cex :
    exitCount sidS (oneSessionRun envD oAllOk opAllOk sidS none 80 24 true
      [ReadResult.eof]) = 2 ∧
    ¬ exitCount sidS (oneSessionRun envD oAllOk opAllOk sidS none 80 24 true
      [ReadResult.eof]) = 1 := by decide

/-- C2 amended: over one session lifetime, the pump contributes exactly
one pty-exit event once its read loop ends, and an explicit stop
contributes one more, so the lifetime total is two with an explicit stop
and one without it. -/
theorem pty_exit_count_per_lifetime (env : Env) (o : StartOracle)
    (so : OpOracle) (sid : String) (cwd : Option String) (cols rows : Nat)
    (stopCalled : Bool) (reads : List ReadResult)
    (hsid : rustTrim sid ≠ "") (hlock : o.lockOk = true)
    (hopen : o.openPtyOk = true) (hspawn : o.spawnOk = true)
    (hreader : o.cloneReaderOk = true) (hwriter : o.takeWriterOk = true)
    (hlock2 : o.lockOk2 = true) (hso : so.lockOk = true)
    (hterm : readsTerminate reads = true) :
    exitCount (rustTrim sid)
      (oneSessionRun env o so sid cwd cols rows stopCalled reads) =
      if stopCalled then 2 else 1 := by
  have hpump := exitCount_pumpEvents (rustTrim sid) reads hterm
  have hempty : Registry.lookup [] (rustTrim sid) = none := rfl
  unfold oneSessionRun
  simp only [tauri_terminal_start, hempty, hlock, hopen, hspawn, hreader,
    hwriter, hlock2]
  simp only [hsid, Bool.true_eq_false, ite_false]
  cases stopCalled <;>
    simp [tauri_terminal_stop, hso, Registry.insert, Registry.removeKey,
      Registry.lookup, eventsOf, exitCount, exitCount_append, hpump]

theorem pty_exit_count_per_lifetime_witness :
    readsTerminate [ReadResult.eof] = true ∧
    exitCount (rustTrim sidS) (oneSessionRun envD oAllOk opAllOk sidS none
      80 24 false [ReadResult.eof]) = if false then 2 else 1 :=
  ⟨by decide,
    pty_exit_count_per_lifetime envD oAllOk opAllOk sidS none 80 24 false
      [ReadResult.eof] (by decide) (by decide) (by decide) (by decide)
      (by decide) (by decide) (by decide) (by decide) (by decide)⟩

/-- C3 counterexample: the byte write and the flush performed by the write
command happen while the registry lock is held, contradicting the claim
that no I/O call happens under the lock. -/
theorem write_io_under_lock_cex :
    Action.ioWrite 1 dataX ∈
      lockedActions (tauri_terminal_write opAllOk regOne sidS dataX).actions ∧
    Action.ioFlush 1 ∈
      lockedActions (tauri_terminal_write opAllOk regOne sidS dataX).actions := by
  decide

/-- C3 amended: the registry lock is held across the byte write and flush
of the write command (they happen inside the guard scope); only the PTY
allocation and the shell spawn performed by start happen outside the
lock. -/
theorem lock_held_across_write_io (o : OpOracle) (reg : Registry)
    (sid data : String) (s : PtySession)
    (env : Env) (o2 : StartOracle) (reg2 : Registry) (sid2 : String)
    (cwd : Option String) (cols rows : Nat)
    (hlock : o.lockOk = true) (hs : reg.lookup sid = some s)
    (hsid2 : rustTrim sid2 ≠ "") (hl2 : o2.lockOk = true) :
    Action.ioWrite s.writerId data ∈
      lockedActions (tauri_terminal_write o reg sid data).actions ∧
    (o.writeOk = true → Action.ioFlush s.writerId ∈
      lockedActions (tauri_terminal_write o reg sid data).actions) ∧
    (∀ r c, Action.openPty r c ∉
      lockedActions (tauri_terminal_start env o2 reg2 sid2 cwd cols rows).actions) ∧
    (∀ sh cw, Action.spawnShell sh cw ∉
      lockedActions (tauri_terminal_start env o2 reg2 sid2 cwd cols rows).actions) := by
  refine ⟨?_, ?_, ?_, ?_⟩
  · simp only [tauri_terminal_write, hlock, hs]
    simp only [Bool.true_eq_false, ite_false]
    split_ifs <;> simp [lockedActions, lockedActionsAux]
  · intro hw
    simp only [tauri_terminal_write, hlock, hs, hw]
    simp only [Bool.true_eq_false, ite_false]
    split_ifs <;> simp [lockedActions, lockedActionsAux]
  · intro r c
    cases hl : reg2.lookup (rustTrim sid2) <;>
    · simp only [tauri_terminal_start, hl, hl2]
      simp only [hsid2, Bool.true_eq_false, ite_false]
      split_ifs <;> simp [lockedActions, lockedActionsAux]
  · intro sh cw
    cases hl : reg2.lookup (rustTrim sid2) <;>
    · simp only [tauri_terminal_start, hl, hl2]
      simp only [hsid2, Bool.true_eq_false, ite_false]
      split_ifs <;> simp [lockedActions, lockedActionsAux]

theorem lock_held_across_write_io_witness :
    Action.ioWrite 1 dataX ∈
      lockedActions (tauri_terminal_write opAllOk regOne sidS dataX).actions ∧
    Action.openPty 80 80 ∉
      lockedActions (tauri_terminal_start envD oAllOk [] sidS none 80 80).actions :=
  ⟨(lock_held_across_write_io opAllOk regOne sidS dataX ⟨1, 2, 3⟩ envD oAllOk
      [] sidS none 80 80 (by decide) (by decide) (by decide) (by decide)).1,
   (lock_held_across_write_io opAllOk regOne sidS dataX ⟨1, 2, 3⟩ envD oAllOk
      [] sidS none 80 80 (by decide) (by decide) (by decide)
      (by decide)).2.2.1 80 80⟩

def envC8 : Env := ⟨false, none, none, some ("/home/user"),
  fun s => s = "/tmp", fun s => s = "/tmp"⟩

def padTmp : String := " /tmp "

def tmpDir : String := "/tmp"

/-- C8 counterexample: for a padded request that is not itself an existing
directory, resolve_pty_cwd returns neither the requested value verbatim
nor the current directory of the process: it returns the trimmed request,
because existence is checked on the trimmed value. -/
theorem resolve_pty_cwd_trims_cex :
    (envC8.pathExists padTmp && envC8.isDir padTmp) = false ∧
    resolve_pty_cwd envC8 (some padTmp) ≠ envC8.currentDir.getD defaultDir ∧
    resolve_pty_cwd envC8 (some padTmp) ≠ padTmp ∧
    resolve_pty_cwd envC8 (some padTmp) = rustTrim padTmp := by decide

/-- C8 amended: resolve_pty_cwd is total and never fails; it trims the
requested value; when the request is absent, blank after trimming, or the
trimmed value is not an existing directory, it returns the current
directory of the process (itself defaulting to the dot path); otherwise
it returns the trimmed requested path. -/
theorem resolve_pty_cwd_spec (env : Env) (requested : Option String) :
    (requested = none →
      resolve_pty_cwd env requested = env.currentDir.getD defaultDir) ∧
    (∀ raw, requested = some raw → rustTrim raw = "" →
      resolve_pty_cwd env requested = env.currentDir.getD defaultDir) ∧
    (∀ raw, requested = some raw → rustTrim raw ≠ "" →
      (env.pathExists (rustTrim raw) && env.isDir (rustTrim raw)) = true →
      resolve_pty_cwd env requested = rustTrim raw) ∧
    (∀ raw, requested = some raw → rustTrim raw ≠ "" →
      (env.pathExists (rustTrim raw) && env.isDir (rustTrim raw)) = false →
      resolve_pty_cwd env requested = env.currentDir.getD defaultDir) := by
  refine ⟨?_, ?_, ?_, ?_⟩
  · intro h; simp [resolve_pty_cwd, h]
  · intro raw h hb; simp [resolve_pty_cwd, h, hb]
  · intro raw h hb hd; simp [resolve_pty_cwd, h, hb, hd]
  · intro raw h hb hd; simp [resolve_pty_cwd, h, hb, hd]

theorem resolve_pty_cwd_spec_witness :
    rustTrim tmpDir ≠ "" ∧
    resolve_pty_cwd envC8 (some tmpDir) = rustTrim tmpDir :=
  ⟨by decide,
    (resolve_pty_cwd_spec envC8 (some tmpDir)).2.2.1 tmpDir rfl (by decide)
      (by decide)⟩

end Inquira
